import Mathlib

/-!
Verification development for the parquet-summarizer column classification and
statistical summarization engine (src/main.rs).

Shallow embedding conventions:
* The polars engine is an external collaborator (spec section 1).  A column is
  therefore modelled by the results its engine primitives return: `n_unique()`
  (`Except`, it may fail), `value_counts(...)` (`Except`, it may fail), and
  `mean()`, `std(1)`, `quantile_reduce(0.25/0.75, Nearest).ok().and_then(extract)`
  (each an `Option` of a number).  Engine-supplied `f64` values are modelled as
  `Rat`; no property proved here depends on floating-point rounding, only on the
  structural flow of the optional values.
* `value_counts` returns a two-column DataFrame whose first column holds the
  grouped values (named after the series) and whose second column is named
  "count"; both columns share the DataFrame height, so the frame is modelled as
  a list of (value, count) rows.  The two `counts_df.column(..)` lookups in the
  Rust code cannot fail for such a frame and are modelled as the projections.
* `AnyValue` keeps exactly the shape the extraction loop inspects: `String`,
  `Categorical` (already resolved through its rev_map to the display string),
  `UInt32`, and a catch-all `other` carrying its `format!("{value}")` rendering.
* `usize`/`u32` become `Nat`; fallible operations become `Except String`.
-/

/-- The runtime values the categorical extraction loop at src/main.rs:237-254
inspects: strings, categorical codes (carried here already resolved to the
string their rev_map yields), u32 counts, and anything else via its Display
rendering. -/
inductive AnyValue where
  | str (s : String)
  | categorical (s : String)
  | uint32 (n : Nat)
  | other (rendered : String)
deriving DecidableEq, Repr

/-- The display string the loop builds for a value (src/main.rs:245-249):
strings pass through, categorical codes resolve through their rev_map, and any
other value uses its default rendering. -/
def anyValueToDisplay : AnyValue → String
  | .str s => s
  | .categorical s => s
  | .uint32 n => toString n
  | .other rendered => rendered

/-- True exactly for the `AnyValue::UInt32` variant, the only count shape the
loop at src/main.rs:251 accepts. -/
def AnyValue.isUInt32 : AnyValue → Bool
  | .uint32 _ => true
  | _ => false

/-- The DataFrame returned by `Series::value_counts`: one row per grouped
value, holding the value and its occurrence count.  Both columns of the real
frame share the frame height, which the row-list representation enforces. -/
structure CountsDF where
  rows : List (AnyValue × AnyValue)
deriving DecidableEq, Repr

/-- `counts_df.height()`. -/
def CountsDF.height (df : CountsDF) : Nat := df.rows.length

/-- The values column of the counts frame (named after the series). -/
def CountsDF.valuesCol (df : CountsDF) : List AnyValue := df.rows.map Prod.fst

/-- The "count" column of the counts frame. -/
def CountsDF.countsCol (df : CountsDF) : List AnyValue := df.rows.map Prod.snd

/-- The declared data type tag of a column, following the arms of the match in
`analyze_column` (src/main.rs:138-173): the eleven numeric tags, the three
string-like tags, and a catch-all for every other polars dtype (Boolean, Date,
List, Struct, ...), carrying its tag text. -/
inductive DType where
  | uint8 | uint16 | uint32 | uint64
  | int8 | int16 | int32 | int64 | int128
  | float32 | float64
  | string | categoricalType | enumType
  | other (tag : String)
deriving DecidableEq, Repr

/-- The numeric arm of the dispatch match (src/main.rs:140-150). -/
def DType.isNumericTag : DType → Bool
  | .uint8 | .uint16 | .uint32 | .uint64
  | .int8 | .int16 | .int32 | .int64 | .int128
  | .float32 | .float64 => true
  | _ => false

/-- The string/categorical/enum arm of the dispatch match (src/main.rs:153). -/
def DType.isStringLike : DType → Bool
  | .string | .categoricalType | .enumType => true
  | _ => false

/-- A column as the engine hands it to the analyzer: its name, declared dtype,
and the (deterministic, spec section 7) results of the engine primitives the
analyzer may invoke on it. -/
structure EngineColumn where
  name : String
  dtype : DType
  nUnique : Except String Nat
  valueCounts : Except String CountsDF
  mean : Option Rat
  std : Option Rat
  q25 : Option Rat
  q75 : Option Rat

/-- `ColumnStats` (src/main.rs:38-51): either numerical descriptive statistics
(each independently optional) or a categorical frequency table with the total
unique count and the truncation flag. -/
inductive ColumnStats where
  | numerical (mean std_dev q25 q75 iqr : Option Rat)
  | categorical (frequency_table : List (String × Nat)) (total_unique : Nat)
      (showing_top_n : Bool)
deriving DecidableEq, Repr

/-- `ColumnSummary` (src/main.rs:31-35). -/
structure ColumnSummary where
  name : String
  data_type : String
  summary : ColumnStats

/-- `series.get(i)` on a column of the counts frame: `Ok` of the value when the
index is in bounds, an error otherwise — the failure the `?` operators at
src/main.rs:238-243 would propagate. -/
def seriesGet (xs : List AnyValue) (i : Nat) : Except String AnyValue :=
  match xs[i]? with
  | some v => Except.ok v
  | none => Except.error ("Failed to get value at index " ++ toString i)

/-- The extraction loop `for i in 0..min(limit, counts_df.height())` at
src/main.rs:237-254, with `fuel` the number of iterations left and `i` the
current index.  Each iteration fetches the value and count at index `i`
(propagating any index error), renders the value, and pushes the pair exactly
when the count is an `AnyValue::UInt32`. -/
def extractEntries (valuesCol countsCol : List AnyValue) :
    Nat → Nat → Except String (List (String × Nat))
  | _, 0 => Except.ok []
  | i, fuel + 1 => do
    let v ← seriesGet valuesCol i
    let c ← seriesGet countsCol i
    let rest ← extractEntries valuesCol countsCol (i + 1) fuel
    match c with
    | .uint32 count_val => Except.ok ((anyValueToDisplay v, count_val) :: rest)
    | _ => Except.ok rest

/-- `analyze_numerical_column` (src/main.rs:177-205): reads the engine's mean,
sample standard deviation and the two nearest-rank quartiles, derives
IQR = q75 − q25 exactly when both quartiles are present, and always succeeds. -/
def analyze_numerical_column (column : EngineColumn) : Except String ColumnStats :=
  let mean := column.mean
  let std_dev := column.std
  let q25 := column.q25
  let q75 := column.q75
  let iqr : Option Rat :=
    match q25, q75 with
    | some q25_val, some q75_val => some (q75_val - q25_val)
    | _, _ => none
  Except.ok (ColumnStats.numerical mean std_dev q25 q75 iqr)

/-- `analyze_categorical_column` (src/main.rs:207-271): obtain the unique count
(failure escalates), request the value-count breakdown; on breakdown failure
degrade to an empty table with `showing_top_n = false`; on success set
`showing_top_n := unique_count > threshold`, cap the loop at
`min(limit, height)` with `limit = min(10, unique_count)` when showing top n
and `limit = unique_count` otherwise, and extract the entries. -/
def analyze_categorical_column (column : EngineColumn)
    (categorical_threshold : Nat) : Except String ColumnStats :=
  match column.nUnique with
  | Except.error e => Except.error ("Failed to count unique values: " ++ e)
  | Except.ok unique_count =>
    match column.valueCounts with
    | Except.ok counts_df =>
      let showing_top_n : Bool := decide (unique_count > categorical_threshold)
      let limit : Nat :=
        if showing_top_n then min 10 unique_count else unique_count
      match extractEntries counts_df.valuesCol counts_df.countsCol 0
          (min limit counts_df.height) with
      | Except.ok frequency_table =>
        Except.ok (ColumnStats.categorical frequency_table unique_count showing_top_n)
      | Except.error e => Except.error e
    | Except.error _ =>
      Except.ok (ColumnStats.categorical [] unique_count false)

/-- `analyze_column` (src/main.rs:135-175): dispatch on the declared dtype —
numeric tags go to the numerical path, string/categorical/enum tags to the
categorical path, and any other tag probes the unique count (failure
escalates) and either takes the categorical path (count ≤ threshold) or
returns the count-only overflow result (count > threshold). -/
def analyze_column (column : EngineColumn) (categorical_threshold : Nat) :
    Except String ColumnStats :=
  match column.dtype with
  | .uint8 | .uint16 | .uint32 | .uint64
  | .int8 | .int16 | .int32 | .int64 | .int128
  | .float32 | .float64 => analyze_numerical_column column
  | .string | .categoricalType | .enumType =>
    analyze_categorical_column column categorical_threshold
  | .other _ =>
    match column.nUnique with
    | Except.error e => Except.error ("Failed to count unique values: " ++ e)
    | Except.ok unique_count =>
      if unique_count ≤ categorical_threshold then
        analyze_categorical_column column categorical_threshold
      else
        Except.ok (ColumnStats.categorical [] unique_count false)

/-- A rendered optional statistic line: the value printed to six decimals, or
the explicit "N/A (no valid values)" marker (src/main.rs:297-307). -/
inductive NumFieldRender where
  | value (x : Rat)
  | notAvailable
deriving DecidableEq, Repr

/-- The rendered quartile group (src/main.rs:309-318): the three values printed
together, or the single "Quartiles: N/A (no valid values)" marker. -/
inductive QuartileRender where
  | values (q25 q75 iqr : Rat)
  | notAvailable
deriving DecidableEq, Repr

/-- The body of one rendered column block of `format_summary`
(src/main.rs:287-347), keeping its numeric and structural content and
abstracting only the literal string templating: the numerical block with its
three parts, the empty-table categorical block ("too many to display"), and
the populated categorical table with the header flag and one
(display value, raw count, percentage) triple per entry. -/
inductive BlockBody where
  | numericalBlock (mean std_dev : NumFieldRender) (quartiles : QuartileRender)
  | categoricalEmpty (total_unique : Nat)
  | categoricalTable (total_unique : Nat) (showing_top_n : Bool)
      (entries : List (String × Nat × Rat))
deriving DecidableEq, Repr

/-- Rendering of one optional numerical statistic (src/main.rs:297-307). -/
def renderOptField : Option Rat → NumFieldRender
  | some v => NumFieldRender.value v
  | none => NumFieldRender.notAvailable

/-- The denominator of the percentage at src/main.rs:342: the sum of the
counts over the displayed entries only. -/
def displayedSum (frequency_table : List (String × Nat)) : Nat :=
  (frequency_table.map (fun e => e.2)).sum

/-- The percentage printed for one displayed entry (src/main.rs:341-342):
`(count as f64 / displayed sum) * 100.0`. -/
def entryPercentage (frequency_table : List (String × Nat)) (count : Nat) : Rat :=
  ((count : Rat) / ((displayedSum frequency_table : Nat) : Rat)) * 100

/-- The per-column rendering decisions of `format_summary`
(src/main.rs:287-347). -/
def renderStats : ColumnStats → BlockBody
  | ColumnStats.numerical mean std_dev q25 q75 iqr =>
    BlockBody.numericalBlock (renderOptField mean) (renderOptField std_dev)
      (match q25, q75, iqr with
       | some q25_val, some q75_val, some iqr_val =>
         QuartileRender.values q25_val q75_val iqr_val
       | _, _, _ => QuartileRender.notAvailable)
  | ColumnStats.categorical frequency_table total_unique showing_top_n =>
    if frequency_table.isEmpty then
      BlockBody.categoricalEmpty total_unique
    else
      BlockBody.categoricalTable total_unique showing_top_n
        (frequency_table.map (fun e => (e.1, e.2, entryPercentage frequency_table e.2)))

/-- `format_summary` (src/main.rs:273-355) over the per-column content: one
numbered block per summary in input order, each carrying the column name, the
dtype display string, and the rendered body. -/
def format_summary (summaries : List ColumnSummary) :
    List (Nat × String × String × BlockBody) :=
  summaries.enum.map (fun p => (p.1 + 1, p.2.name, p.2.data_type, renderStats p.2.summary))

/-! Helper lemmas about the counts frame and the extraction loop. -/

/-- Both columns of the counts frame have the frame's height. -/
theorem valuesCol_length (df : CountsDF) : df.valuesCol.length = df.height := by
  simp [CountsDF.valuesCol, CountsDF.height]

/-- Both columns of the counts frame have the frame's height. -/
theorem countsCol_length (df : CountsDF) : df.countsCol.length = df.height := by
  simp [CountsDF.countsCol, CountsDF.height]

/-- When the iteration range fits inside both columns, the extraction loop
never hits an index error, and it pushes at most one entry per iteration. -/
theorem extractEntries_ok (values counts : List AnyValue) :
    ∀ fuel i, i + fuel ≤ values.length → i + fuel ≤ counts.length →
    ∃ ft, extractEntries values counts i fuel = Except.ok ft ∧ ft.length ≤ fuel := by
  intro fuel
  induction fuel with
  | zero => exact fun i _ _ => ⟨[], rfl, Nat.le_refl 0⟩
  | succ fuel ih =>
    intro i hv hc
    have hiv : i < values.length := by omega
    have hic : i < counts.length := by omega
    obtain ⟨rest, hrest, hlen⟩ := ih (i + 1) (by omega) (by omega)
    have hgv : seriesGet values i = Except.ok values[i] := by
      simp [seriesGet, List.getElem?_eq_getElem hiv]
    have hgc : seriesGet counts i = Except.ok counts[i] := by
      simp [seriesGet, List.getElem?_eq_getElem hic]
    cases hcv : counts[i] with
    | uint32 k =>
      refine ⟨(anyValueToDisplay values[i], k) :: rest, ?_, Nat.succ_le_succ hlen⟩
      simp only [extractEntries, hgv, hgc, hrest, hcv]
      rfl
    | str s =>
      refine ⟨rest, ?_, Nat.le_succ_of_le hlen⟩
      simp only [extractEntries, hgv, hgc, hrest, hcv]
      rfl
    | categorical s =>
      refine ⟨rest, ?_, Nat.le_succ_of_le hlen⟩
      simp only [extractEntries, hgv, hgc, hrest, hcv]
      rfl
    | other r =>
      refine ⟨rest, ?_, Nat.le_succ_of_le hlen⟩
      simp only [extractEntries, hgv, hgc, hrest, hcv]
      rfl

/-- When additionally every count cell is an `AnyValue::UInt32` (the type the
engine's `value_counts` "count" column always carries), the loop pushes exactly
one entry per iteration. -/
theorem extractEntries_length_eq (values counts : List AnyValue)
    (hall : ∀ c ∈ counts, c.isUInt32 = true) :
    ∀ fuel i, i + fuel ≤ values.length → i + fuel ≤ counts.length →
    ∃ ft, extractEntries values counts i fuel = Except.ok ft ∧ ft.length = fuel := by
  intro fuel
  induction fuel with
  | zero => exact fun i _ _ => ⟨[], rfl, rfl⟩
  | succ fuel ih =>
    intro i hv hc
    have hiv : i < values.length := by omega
    have hic : i < counts.length := by omega
    obtain ⟨rest, hrest, hlen⟩ := ih (i + 1) (by omega) (by omega)
    have hgv : seriesGet values i = Except.ok values[i] := by
      simp [seriesGet, List.getElem?_eq_getElem hiv]
    have hgc : seriesGet counts i = Except.ok counts[i] := by
      simp [seriesGet, List.getElem?_eq_getElem hic]
    have hmem : counts[i] ∈ counts := List.getElem_mem hic
    cases hcv : counts[i] with
    | uint32 k =>
      refine ⟨(anyValueToDisplay values[i], k) :: rest, ?_, by simp [hlen]⟩
      simp only [extractEntries, hgv, hgc, hrest, hcv]
      rfl
    | str s => exact absurd (hall _ hmem) (by simp [hcv, AnyValue.isUInt32])
    | categorical s => exact absurd (hall _ hmem) (by simp [hcv, AnyValue.isUInt32])
    | other r => exact absurd (hall _ hmem) (by simp [hcv, AnyValue.isUInt32])

/-- Characterization of the successful-breakdown branch of
`analyze_categorical_column`: the frequency table is what the loop extracts
from the first `min(limit, height)` rows, the truncation flag is exactly
`unique_count > threshold`, and the table length is bounded by the loop
range. -/
theorem analyze_categorical_ok (col : EngineColumn) (t u : Nat) (df : CountsDF)
    (hu : col.nUnique = Except.ok u) (hv : col.valueCounts = Except.ok df) :
    ∃ ft, analyze_categorical_column col t =
        Except.ok (ColumnStats.categorical ft u (decide (u > t))) ∧
      extractEntries df.valuesCol df.countsCol 0
        (min (if decide (u > t) = true then min 10 u else u) df.height) = Except.ok ft ∧
      ft.length ≤ min (if decide (u > t) = true then min 10 u else u) df.height := by
  obtain ⟨ft, hft, hlen⟩ := extractEntries_ok df.valuesCol df.countsCol
    (min (if decide (u > t) = true then min 10 u else u) df.height) 0
    (by rw [valuesCol_length]; omega)
    (by rw [countsCol_length]; omega)
  refine ⟨ft, ?_, hft, hlen⟩
  simp only [analyze_categorical_column, hu, hv, hft]

/-! Claim theorems. -/

/-- C8: `compute_numerical` never fails: for every column input,
`analyze_numerical_column` returns a `NumericalStats` result, expressing any
undefined statistic as an absent optional field rather than an error. -/
theorem C8_compute_numerical_never_fails (column : EngineColumn) :
    ∃ mean std_dev q25 q75 iqr : Option Rat,
      analyze_numerical_column column =
        Except.ok (ColumnStats.numerical mean std_dev q25 q75 iqr) :=
  ⟨column.mean, column.std, column.q25, column.q75, _, rfl⟩

/-- C6: in every numerical column result, the IQR field is present iff both
the 25th and 75th percentile fields are present, and when present it equals
q75 minus q25. -/
theorem C6_iqr_iff_quartiles (column : EngineColumn)
    (m s a b i : Option Rat)
    (h : analyze_numerical_column column =
      Except.ok (ColumnStats.numerical m s a b i)) :
    (i.isSome ↔ (a.isSome ∧ b.isSome)) ∧
    (∀ x y : Rat, a = some x → b = some y → i = some (y - x)) := by
  simp only [analyze_numerical_column, Except.ok.injEq,
    ColumnStats.numerical.injEq] at h
  obtain ⟨hm, hs, ha, hb, hi⟩ := h
  subst ha
  subst hb
  subst hi
  constructor
  · cases column.q25 <;> cases column.q75 <;> simp
  · intro x y hx hy
    simp [hx, hy]

/-- Witness for C6 at a column whose quartile probes return 2 and 4. -/
theorem C6_iqr_iff_quartiles_witness :
    ((some ((4 : Rat) - 2) : Option Rat).isSome ↔
      ((some (2 : Rat) : Option Rat).isSome ∧ (some (4 : Rat) : Option Rat).isSome)) ∧
    (∀ x y : Rat, (some (2 : Rat) : Option Rat) = some x →
      (some (4 : Rat) : Option Rat) = some y →
      (some ((4 : Rat) - 2) : Option Rat) = some (y - x)) :=
  C6_iqr_iff_quartiles
    ⟨"n", DType.float64, Except.ok 0, Except.error "e", some 3, some 1, some 2, some 4⟩
    (some 3) (some 1) (some 2) (some 4) (some ((4 : Rat) - 2)) rfl

/-- C10: the renderer treats the quartile group as all-or-nothing over the
three fields q25, q75, IQR: with both quartiles present but IQR absent, the
block carries the single "not available" marker instead of the values. -/
theorem C10_quartile_group_all_or_nothing (m s : Option Rat) (a b : Rat) :
    renderStats (ColumnStats.numerical m s (some a) (some b) none) =
      BlockBody.numericalBlock (renderOptField m) (renderOptField s)
        QuartileRender.notAvailable := rfl

/-- C4: when the unique-count probe succeeds but the value-count breakdown
fails, `compute_categorical` still succeeds, returning an empty frequency
table, the already-obtained unique count, and `showing_top_n = false`. -/
theorem C4_degraded_on_breakdown_failure (column : EngineColumn)
    (t u : Nat) (e : String)
    (hu : column.nUnique = Except.ok u)
    (hv : column.valueCounts = Except.error e) :
    analyze_categorical_column column t =
      Except.ok (ColumnStats.categorical [] u false) := by
  simp [analyze_categorical_column, hu, hv]

/-- Witness for C4 at a column whose breakdown request fails. -/
theorem C4_degraded_on_breakdown_failure_witness :
    analyze_categorical_column
      ⟨"c", DType.string, Except.ok 5, Except.error "boom", none, none, none, none⟩ 10 =
      Except.ok (ColumnStats.categorical [] 5 false) :=
  C4_degraded_on_breakdown_failure
    ⟨"c", DType.string, Except.ok 5, Except.error "boom", none, none, none, none⟩
    10 5 "boom" rfl rfl

/-- C9: in the categorical path the extraction loop is bounded by
`min(limit, height)`, so whenever the probe and the breakdown both succeed the
whole extraction succeeds (no per-index access is out of bounds) and the
frequency table never holds more entries than the breakdown has rows, even
when the reported unique count exceeds the row count. -/
theorem C9_loop_bounded_by_height (column : EngineColumn) (t u : Nat)
    (df : CountsDF)
    (hu : column.nUnique = Except.ok u)
    (hv : column.valueCounts = Except.ok df) :
    ∃ ft top, analyze_categorical_column column t =
        Except.ok (ColumnStats.categorical ft u top) ∧
      ft.length ≤ df.height := by
  obtain ⟨ft, hres, _, hlen⟩ := analyze_categorical_ok column t u df hu hv
  exact ⟨ft, decide (u > t), hres, le_trans hlen (Nat.min_le_right _ _)⟩

/-- Witness for C9 at a column reporting 7 unique values over a 3-row
breakdown frame. -/
theorem C9_loop_bounded_by_height_witness :
    ∃ ft top, analyze_categorical_column
        ⟨"c", DType.string, Except.ok 7,
          Except.ok ⟨[(AnyValue.str "a", AnyValue.uint32 3),
            (AnyValue.str "b", AnyValue.uint32 2),
            (AnyValue.str "d", AnyValue.uint32 1)]⟩,
          none, none, none, none⟩ 10 =
        Except.ok (ColumnStats.categorical ft 7 top) ∧
      ft.length ≤ CountsDF.height ⟨[(AnyValue.str "a", AnyValue.uint32 3),
        (AnyValue.str "b", AnyValue.uint32 2),
        (AnyValue.str "d", AnyValue.uint32 1)]⟩ :=
  C9_loop_bounded_by_height _ 10 7 _ rfl rfl

/-- C3: for a categorical column whose unique count exceeds the threshold and
whose breakdown succeeds with at least `min(10, unique count)` rows, all of
whose count cells carry the engine's u32 count type, the frequency table has
length exactly `min(10, unique count)` and `showing_top_n` is true. -/
theorem C3_top_n_exact_length (column : EngineColumn) (t u : Nat)
    (df : CountsDF)
    (hu : column.nUnique = Except.ok u)
    (hv : column.valueCounts = Except.ok df)
    (hgt : u > t)
    (hrows : min 10 u ≤ df.height)
    (hcounts : ∀ c ∈ df.countsCol, c.isUInt32 = true) :
    ∃ ft, analyze_categorical_column column t =
        Except.ok (ColumnStats.categorical ft u true) ∧
      ft.length = min 10 u := by
  have hd : decide (u > t) = true := decide_eq_true hgt
  have hmin : min (if decide (u > t) = true then min 10 u else u) df.height
      = min 10 u := by
    rw [hd, if_pos rfl]
    exact min_eq_left hrows
  obtain ⟨ft, hft, hlen⟩ := extractEntries_length_eq df.valuesCol df.countsCol hcounts
    (min (if decide (u > t) = true then min 10 u else u) df.height) 0
    (by rw [valuesCol_length]; omega)
    (by rw [countsCol_length]; omega)
  refine ⟨ft, ?_, by rw [hlen]; exact hmin⟩
  simp only [analyze_categorical_column, hu, hv, hft]
  rw [hd]

/-- Witness for C3 at a column with 15 unique values, threshold 10, and a
15-row breakdown with u32 counts. -/
theorem C3_top_n_exact_length_witness :
    ∃ ft, analyze_categorical_column
        ⟨"c", DType.string, Except.ok 15,
          Except.ok ⟨List.replicate 15 (AnyValue.str "v", AnyValue.uint32 1)⟩,
          none, none, none, none⟩ 10 =
        Except.ok (ColumnStats.categorical ft 15 true) ∧
      ft.length = min 10 15 :=
  C3_top_n_exact_length _ 10 15 _ rfl rfl (by decide) (by decide) (by decide)

/-- C5: the classifier dispatches exactly by declared type tag: every integer
or float tag takes the numerical path without invoking the unique-count probe
(the result does not depend on the probe's outcome at all); string,
categorical-coded and enum-coded tags take the categorical path; any other tag
probes the unique count and compares it to the threshold — at most the
threshold takes the categorical path, above it yields the count-only overflow
result with an empty frequency table. -/
theorem C5_classifier_dispatch (column : EngineColumn) (t : Nat) :
    (column.dtype.isNumericTag = true →
      (∀ nu : Except String Nat,
        analyze_column { column with nUnique := nu } t =
          analyze_numerical_column column) ∧
      analyze_column column t = analyze_numerical_column column) ∧
    (column.dtype.isStringLike = true →
      analyze_column column t = analyze_categorical_column column t) ∧
    (∀ tag : String, column.dtype = DType.other tag →
      ∀ u : Nat, column.nUnique = Except.ok u →
        (u ≤ t → analyze_column column t = analyze_categorical_column column t) ∧
        (t < u → analyze_column column t =
          Except.ok (ColumnStats.categorical [] u false))) := by
  obtain ⟨name, dtype, nUnique, valueCounts, mean, std, q25, q75⟩ := column
  refine ⟨fun hnum => ?_, fun hstr => ?_, fun tag htag u hu => ?_⟩
  · cases dtype <;> first
      | exact ⟨fun nu => rfl, rfl⟩
      | simp_all [DType.isNumericTag]
  · cases dtype <;> first
      | exact rfl
      | simp_all [DType.isStringLike]
  · subst htag
    have hu2 : nUnique = Except.ok u := hu
    subst hu2
    refine ⟨fun hle => ?_, fun hlt => ?_⟩
    · simp only [analyze_column]
      rw [if_pos hle]
    · simp only [analyze_column]
      rw [if_neg (by omega)]

/-- Witness for C5: an Int64 column (numerical path independent of the probe,
even a failing probe), a String column (categorical path), and two
"other"-typed columns with unique counts 2 and 20 against threshold 10. -/
theorem C5_classifier_dispatch_witness :
    analyze_column ⟨"n", DType.int64, Except.ok 99, Except.error "vc",
        some 1, none, none, none⟩ 10 =
      analyze_numerical_column ⟨"n", DType.int64, Except.error "probe",
        Except.error "vc", some 1, none, none, none⟩ ∧
    analyze_column ⟨"n", DType.int64, Except.error "probe", Except.error "vc",
        some 1, none, none, none⟩ 10 =
      analyze_numerical_column ⟨"n", DType.int64, Except.error "probe",
        Except.error "vc", some 1, none, none, none⟩ ∧
    analyze_column ⟨"s", DType.string, Except.ok 1,
        Except.ok ⟨[(AnyValue.str "x", AnyValue.uint32 1)]⟩,
        none, none, none, none⟩ 10 =
      analyze_categorical_column ⟨"s", DType.string, Except.ok 1,
        Except.ok ⟨[(AnyValue.str "x", AnyValue.uint32 1)]⟩,
        none, none, none, none⟩ 10 ∧
    analyze_column ⟨"o", DType.other "Boolean", Except.ok 2, Except.error "vc",
        none, none, none, none⟩ 10 =
      analyze_categorical_column ⟨"o", DType.other "Boolean", Except.ok 2,
        Except.error "vc", none, none, none, none⟩ 10 ∧
    analyze_column ⟨"p", DType.other "List", Except.ok 20, Except.error "vc",
        none, none, none, none⟩ 10 =
      Except.ok (ColumnStats.categorical [] 20 false) :=
  ⟨((C5_classifier_dispatch ⟨"n", DType.int64, Except.error "probe",
      Except.error "vc", some 1, none, none, none⟩ 10).1 rfl).1 (Except.ok 99),
   ((C5_classifier_dispatch ⟨"n", DType.int64, Except.error "probe",
      Except.error "vc", some 1, none, none, none⟩ 10).1 rfl).2,
   (C5_classifier_dispatch ⟨"s", DType.string, Except.ok 1,
      Except.ok ⟨[(AnyValue.str "x", AnyValue.uint32 1)]⟩,
      none, none, none, none⟩ 10).2.1 rfl,
   ((C5_classifier_dispatch ⟨"o", DType.other "Boolean", Except.ok 2,
      Except.error "vc", none, none, none, none⟩ 10).2.2 "Boolean" rfl 2 rfl).1
     (by decide),
   ((C5_classifier_dispatch ⟨"p", DType.other "List", Except.ok 20,
      Except.error "vc", none, none, none, none⟩ 10).2.2 "List" rfl 20 rfl).2
     (by decide)⟩

/-- The sum of `(count / S) * 100` over a list of entries equals
`(sum of counts / S) * 100`. -/
theorem sum_map_div_mul (l : List (String × Nat)) (S : Rat) :
    (l.map (fun e => ((e.2 : Rat) / S) * 100)).sum =
      ((((l.map (fun e => e.2)).sum : Nat) : Rat) / S) * 100 := by
  induction l with
  | nil => simp
  | cons x xs ih =>
    simp only [List.map_cons, List.sum_cons, ih]
    push_cast
    ring

/-- C7: every rendered frequency-table entry carries the percentage
`100 * count / (sum of counts over the displayed entries)` — the denominator
is the displayed subset, not the column's true row count — and for a non-empty
table (with a positive displayed total, as occurrence counts are) the listed
percentages sum to exactly 100, hence to 100.0 after 1-decimal rounding. -/
theorem C7_percentages_over_displayed (frequency_table : List (String × Nat))
    (total_unique : Nat) (showing_top_n : Bool)
    (hpos : 0 < displayedSum frequency_table) :
    renderStats (ColumnStats.categorical frequency_table total_unique showing_top_n) =
      BlockBody.categoricalTable total_unique showing_top_n
        (frequency_table.map
          (fun e => (e.1, e.2, entryPercentage frequency_table e.2))) ∧
    (∀ e ∈ frequency_table,
      entryPercentage frequency_table e.2 =
        100 * (e.2 : Rat) / ((displayedSum frequency_table : Nat) : Rat)) ∧
    (frequency_table.map (fun e => entryPercentage frequency_table e.2)).sum
      = 100 := by
  have hne : frequency_table.isEmpty = false := by
    cases frequency_table with
    | nil => simp [displayedSum] at hpos
    | cons a l => rfl
  refine ⟨by simp [renderStats, hne], fun e he => by simp only [entryPercentage]; ring, ?_⟩
  have hS : ((displayedSum frequency_table : Nat) : Rat) ≠ 0 := by
    exact_mod_cast Nat.pos_iff_ne_zero.mp hpos
  simp only [entryPercentage]
  rw [sum_map_div_mul]
  rw [show ((frequency_table.map (fun e => e.2)).sum : Nat) = displayedSum frequency_table from rfl]
  rw [div_self hS, one_mul]

/-- Witness for C7 at the spec's scenario table [("a",2),("b",1),("c",1)]. -/
theorem C7_percentages_over_displayed_witness :
    renderStats (ColumnStats.categorical [("a", 2), ("b", 1), ("c", 1)] 3 false) =
      BlockBody.categoricalTable 3 false
        ([("a", 2), ("b", 1), ("c", 1)].map
          (fun e => (e.1, e.2, entryPercentage [("a", 2), ("b", 1), ("c", 1)] e.2))) ∧
    (∀ e ∈ [("a", 2), ("b", 1), ("c", 1)],
      entryPercentage [("a", 2), ("b", 1), ("c", 1)] e.2 =
        100 * (e.2 : Rat) / ((displayedSum [("a", 2), ("b", 1), ("c", 1)] : Nat) : Rat)) ∧
    ([("a", 2), ("b", 1), ("c", 1)].map
      (fun e => entryPercentage [("a", 2), ("b", 1), ("c", 1)] e.2)).sum = 100 :=
  C7_percentages_over_displayed [("a", 2), ("b", 1), ("c", 1)] 3 false (by decide)

/-- C1 as stated is false on the code: with threshold 20 and unique count 15
(between 11 and the threshold), the successful-breakdown path caps the loop at
`unique_count`, not 10, so the frequency table holds 15 > min(15, 10)
entries. -/
theorem C1_counterexample :
    analyze_categorical_column ⟨"c", DType.string, Except.ok 15,
        Except.ok ⟨List.replicate 15 (AnyValue.str "v", AnyValue.uint32 1)⟩,
        none, none, none, none⟩ 20 =
      Except.ok (ColumnStats.categorical
        (List.replicate 15 (("v" : String), (1 : Nat))) 15 false) ∧
    ¬ ((List.replicate 15 (("v" : String), (1 : Nat))).length ≤ min 15 10) :=
  ⟨rfl, by decide⟩

/-- C1 amended: every categorical result's frequency table holds at most
`unique_count` entries, and at most `min(10, unique_count)` whenever
`showing_top_n` is set (that is, when unique count exceeds the threshold);
when the threshold exceeds 10 the table may legitimately hold more than 10
entries. -/
theorem C1_amended_bound (column : EngineColumn) (t : Nat)
    (ft : List (String × Nat)) (u : Nat) (top : Bool)
    (h : analyze_categorical_column column t =
      Except.ok (ColumnStats.categorical ft u top)) :
    ft.length ≤ u ∧ (top = true → ft.length ≤ min 10 u) := by
  cases hu : column.nUnique with
  | error e => simp [analyze_categorical_column, hu] at h
  | ok u0 =>
    cases hv : column.valueCounts with
    | error e =>
      simp only [analyze_categorical_column, hu, hv, Except.ok.injEq,
        ColumnStats.categorical.injEq] at h
      obtain ⟨h1, h2, h3⟩ := h
      subst h1
      subst h2
      subst h3
      simp
    | ok df =>
      obtain ⟨ft2, hres, hext, hlen⟩ := analyze_categorical_ok column t u0 df hu hv
      rw [h] at hres
      simp only [Except.ok.injEq, ColumnStats.categorical.injEq] at hres
      obtain ⟨hft, huq, htop⟩ := hres
      subst hft
      subst huq
      subst htop
      by_cases hd : u > t
      · rw [decide_eq_true hd] at hlen
        simp only [if_pos] at hlen
        exact ⟨by omega, fun _ => by omega⟩
      · rw [decide_eq_false hd] at hlen
        simp only [Bool.false_eq_true, if_false] at hlen
        exact ⟨by omega, fun htop2 => absurd (of_decide_eq_true htop2) hd⟩

/-- Witness for the amended C1 at threshold 10 and unique count 15. -/
theorem C1_amended_bound_witness :
    (List.replicate 10 (("v" : String), (1 : Nat))).length ≤ 15 ∧
    ((true : Bool) = true →
      (List.replicate 10 (("v" : String), (1 : Nat))).length ≤ min 10 15) :=
  C1_amended_bound ⟨"c", DType.string, Except.ok 15,
    Except.ok ⟨List.replicate 15 (AnyValue.str "v", AnyValue.uint32 1)⟩,
    none, none, none, none⟩ 10
    (List.replicate 10 (("v" : String), (1 : Nat))) 15 true rfl

/-- C2 as stated is false on the code: in the degraded empty-table case the
table (length 0) is truncated relative to the unique count (5), yet
`showing_top_n` is false, so the flag is not equivalent to truncation. -/
theorem C2_counterexample :
    analyze_categorical_column ⟨"c", DType.string, Except.ok 5,
        Except.error "boom", none, none, none, none⟩ 10 =
      Except.ok (ColumnStats.categorical [] 5 false) ∧
    ¬ (((false : Bool) = true) ↔ ([] : List (String × Nat)).length < 5) :=
  ⟨rfl, by decide⟩

/-- C2 amended: `showing_top_n` is true iff the value-count breakdown
succeeded and the unique count exceeds the threshold; it does not track actual
truncation of the table. -/
theorem C2_amended_flag (column : EngineColumn) (t : Nat)
    (ft : List (String × Nat)) (u : Nat) (top : Bool)
    (h : analyze_categorical_column column t =
      Except.ok (ColumnStats.categorical ft u top)) :
    top = true ↔ ((∃ df, column.valueCounts = Except.ok df) ∧ t < u) := by
  cases hu : column.nUnique with
  | error e => simp [analyze_categorical_column, hu] at h
  | ok u0 =>
    cases hv : column.valueCounts with
    | error e =>
      simp only [analyze_categorical_column, hu, hv, Except.ok.injEq,
        ColumnStats.categorical.injEq] at h
      obtain ⟨h1, h2, h3⟩ := h
      subst h1
      subst h2
      subst h3
      simp [hv]
    | ok df =>
      obtain ⟨ft2, hres, hext, hlen⟩ := analyze_categorical_ok column t u0 df hu hv
      rw [h] at hres
      simp only [Except.ok.injEq, ColumnStats.categorical.injEq] at hres
      obtain ⟨hft, huq, htop⟩ := hres
      subst huq
      subst htop
      simp [hv, decide_eq_true_eq]

/-- Witness for the amended C2 at threshold 10 and unique count 15 with a
successful breakdown. -/
theorem C2_amended_flag_witness :
    (true : Bool) = true ↔
      ((∃ df, (Except.ok (⟨List.replicate 15 (AnyValue.str "v", AnyValue.uint32 1)⟩ : CountsDF) :
          Except String CountsDF) = Except.ok df) ∧ 10 < 15) :=
  C2_amended_flag ⟨"c", DType.string, Except.ok 15,
    Except.ok ⟨List.replicate 15 (AnyValue.str "v", AnyValue.uint32 1)⟩,
    none, none, none, none⟩ 10
    (List.replicate 10 (("v" : String), (1 : Nat))) 15 true rfl
